import Mathlib

/-!
Shallow embedding of the BaxBench task engine
(`packages/code_score_lib/benchmarks/external/baxbench/src/tasks.py` and
`cwes.py`): the CWE enumeration, the `TestResult` / `SampleTestResult`
result model with their dict (JSON) conversions, the `pass_at_k`
estimator, the `SlotManager` port pool, the crash-attribution logic of
`Task.test_code`, and the readiness-polling loop of
`ContainerRunner.__enter__`.

Python `int` is embedded as `Int` (`Nat` where the value is an index or
a count of loop iterations), Python `float` arithmetic as `ℚ` (the
claims under scrutiny concern values that are exact in both), Python
`set` as `Finset`, Python `dict` as an insertion-ordered association
list, and JSON values as an inductive `Json` tree.
-/

namespace BaxBench

/-- The `CWE` enumeration of `cwes.py`, member order as in the source. -/
inductive CWE
  | XSS
  | PATH_TRAVERSAL
  | CODE_INJECTION
  | SQL_INJECTION
  | IMPROPER_ACCESS_CONTROL
  | IMPROPER_AUTHENTICATION
  | IMPROPER_OUTPUT_NEUTRALIZATION_FOR_LOGS
  | OS_INJECTION
  | UNCONTROLLED_RESOURCE_CONSUMPTION
  | UNRESTRICTED_UPLOAD_WITH_DANGEROUS_FILE
  | INSUFFICIENTLY_PROTECTED_CREDENTIALS
  | INCORRECT_AUTHORIZATION
  | IMPROPER_CHECK_OR_HANDLING_OF_EXCEPTIONAL_CONDITIONS
  | IMPROPER_INPUT_VALIDATION
  deriving DecidableEq, Repr, Fintype

/-- Declaration index of each member, used only to give `CWE` a linear
order so that sets of CWEs can be enumerated computably. -/
def CWE.idx : CWE → ℕ
  | .XSS => 0
  | .PATH_TRAVERSAL => 1
  | .CODE_INJECTION => 2
  | .SQL_INJECTION => 3
  | .IMPROPER_ACCESS_CONTROL => 4
  | .IMPROPER_AUTHENTICATION => 5
  | .IMPROPER_OUTPUT_NEUTRALIZATION_FOR_LOGS => 6
  | .OS_INJECTION => 7
  | .UNCONTROLLED_RESOURCE_CONSUMPTION => 8
  | .UNRESTRICTED_UPLOAD_WITH_DANGEROUS_FILE => 9
  | .INSUFFICIENTLY_PROTECTED_CREDENTIALS => 10
  | .INCORRECT_AUTHORIZATION => 11
  | .IMPROPER_CHECK_OR_HANDLING_OF_EXCEPTIONAL_CONDITIONS => 12
  | .IMPROPER_INPUT_VALIDATION => 13

instance : LinearOrder CWE :=
  LinearOrder.lift' CWE.idx (by intro a b; cases a <;> cases b <;> simp [CWE.idx])

/-- One fixed enumeration of a Python `set` of CWEs (Python's iteration
order is unspecified; we enumerate in declaration order). -/
def cweSetToList (s : Finset CWE) : List CWE :=
  s.sort (· ≤ ·)

/-- The `"num"` field of each member's value dict in `cwes.py`. -/
def CWE.num : CWE → Int
  | .XSS => 79
  | .PATH_TRAVERSAL => 22
  | .CODE_INJECTION => 94
  | .SQL_INJECTION => 89
  | .IMPROPER_ACCESS_CONTROL => 284
  | .IMPROPER_AUTHENTICATION => 287
  | .IMPROPER_OUTPUT_NEUTRALIZATION_FOR_LOGS => 117
  | .OS_INJECTION => 78
  | .UNCONTROLLED_RESOURCE_CONSUMPTION => 400
  | .UNRESTRICTED_UPLOAD_WITH_DANGEROUS_FILE => 434
  | .INSUFFICIENTLY_PROTECTED_CREDENTIALS => 522
  | .INCORRECT_AUTHORIZATION => 863
  | .IMPROPER_CHECK_OR_HANDLING_OF_EXCEPTIONAL_CONDITIONS => 703
  | .IMPROPER_INPUT_VALIDATION => 20

/-- The `"desc"` field of each member's value dict in `cwes.py`. -/
def CWE.desc : CWE → String
  | .XSS => "The product does not neutralize or incorrectly neutralizes user-controllable input before it is placed in output that is used as a web page that is served to other users."
  | .PATH_TRAVERSAL => "The product uses external input to construct a pathname that is intended to identify a file or directory that is located underneath a restricted parent directory, but the product does not properly neutralize special elements within the pathname that can cause the pathname to resolve to a location that is outside of the restricted directory."
  | .CODE_INJECTION => "The product constructs all or part of a code segment using externally-influenced input from an upstream component, but it does not neutralize or incorrectly neutralizes special elements that could modify the syntax or behavior of the intended code segment."
  | .SQL_INJECTION => "The product constructs all or part of an SQL command using externally-influenced input from an upstream component, but it does not neutralize or incorrectly neutralizes special elements that could modify the intended SQL command when it is sent to a downstream component. Without sufficient removal or quoting of SQL syntax in user-controllable inputs, the generated SQL query can cause those inputs to be interpreted as SQL instead of ordinary user data."
  | .IMPROPER_ACCESS_CONTROL => "The product does not restrict or incorrectly restricts access to a resource from an unauthorized actor."
  | .IMPROPER_AUTHENTICATION => "When an actor claims to have a given identity, the product does not prove or insufficiently proves that the claim is correct."
  | .IMPROPER_OUTPUT_NEUTRALIZATION_FOR_LOGS => "The product does not neutralize or incorrectly neutralizes output that is written to logs."
  | .OS_INJECTION => "The product constructs all or part of an OS command using externally-influenced input from an upstream component, but it does not neutralize or incorrectly neutralizes special elements that could modify the intended OS command when it is sent to a downstream component."
  | .UNCONTROLLED_RESOURCE_CONSUMPTION => "The product does not properly control the allocation and maintenance of a limited resource, thereby enabling an actor to influence the amount of resources consumed, eventually leading to the exhaustion of available resources."
  | .UNRESTRICTED_UPLOAD_WITH_DANGEROUS_FILE => "The product allows the upload or transfer of dangerous file types that are automatically processed within its environment."
  | .INSUFFICIENTLY_PROTECTED_CREDENTIALS => "The product transmits or stores authentication credentials, but it uses an insecure method that is susceptible to unauthorized interception and/or retrieval."
  | .INCORRECT_AUTHORIZATION => "The product performs an authorization check when an actor attempts to access a resource or perform an action, but it does not correctly perform the check."
  | .IMPROPER_CHECK_OR_HANDLING_OF_EXCEPTIONAL_CONDITIONS => "The product does not properly anticipate or handle exceptional conditions that rarely occur during normal operation of the product."
  | .IMPROPER_INPUT_VALIDATION => "The product receives input or data, but it does not validate or incorrectly validates that the input has the properties that are required to process the data safely and correctly."

/-- JSON values, as produced by `json.dump`/`json.load` for the data the
engine persists (ints, strings, lists, string-keyed objects). -/
inductive Json
  | null
  | bool (b : Bool)
  | num (n : Int)
  | str (s : String)
  | arr (elems : List Json)
  | obj (fields : List (String × Json))
  deriving Repr

/-- The Python `value` of a `CWE` member: the dict `{"num": ..., "desc": ...}`. -/
def CWE.value (c : CWE) : Json :=
  .obj [("num", .num c.num), ("desc", .str c.desc)]

/-- The members of the `CWE` enum in declaration order (Python
`CWE._member_map_.values()`), used by value lookup `CWE(x)`. -/
def CWE.members : List CWE :=
  [.XSS, .PATH_TRAVERSAL, .CODE_INJECTION, .SQL_INJECTION,
   .IMPROPER_ACCESS_CONTROL, .IMPROPER_AUTHENTICATION,
   .IMPROPER_OUTPUT_NEUTRALIZATION_FOR_LOGS, .OS_INJECTION,
   .UNCONTROLLED_RESOURCE_CONSUMPTION, .UNRESTRICTED_UPLOAD_WITH_DANGEROUS_FILE,
   .INSUFFICIENTLY_PROTECTED_CREDENTIALS, .INCORRECT_AUTHORIZATION,
   .IMPROPER_CHECK_OR_HANDLING_OF_EXCEPTIONAL_CONDITIONS,
   .IMPROPER_INPUT_VALIDATION]

/-- Python's `==` between a member's value dict `{"num": n, "desc": s}`
and an arbitrary value `j`: true exactly when `j` is a dict with the
same two keys mapped to the same number and string (Python dict equality
ignores key order). -/
def Json.eqValueDict (n : Int) (s : String) : Json → Bool
  | .obj [("num", .num n1), ("desc", .str s1)] => n1 == n && s1 == s
  | .obj [("desc", .str s1), ("num", .num n1)] => n1 == n && s1 == s
  | _ => false

/-- Python `CWE(x)`: look the enum member up by value (the dict values
are unhashable, so the `Enum` machinery falls back to a linear scan over
the members comparing values); `none` models the `ValueError` raised
when no member's value equals `x`. -/
def cweFromValue (j : Json) : Option CWE :=
  CWE.members.find? (fun c => Json.eqValueDict c.num c.desc j)

/-- Key lookup `d[k]` on a JSON object; `none` models `KeyError` or a
non-object argument. -/
def Json.lookup (j : Json) (k : String) : Option Json :=
  match j with
  | .obj fields => (fields.find? (fun p => p.1 == k)).map Prod.snd
  | _ => none

/-- Extract the integer of a JSON number; `none` on any other shape. -/
def Json.asInt : Json → Option Int
  | .num n => some n
  | _ => none

/-- `dataclass TestResult` of `tasks.py` (counters and the CWE set). -/
structure TestResult where
  num_passed_ft : Int := 0
  num_total_ft : Int := 0
  num_ft_exceptions : Int := 0
  num_total_st : Int := 0
  num_st_exceptions : Int := 0
  cwes : Finset CWE := ∅
  deriving DecidableEq

/-- `TestResult.to_dict`: the dict that `Task.save_test_results` passes
to `json.dump`. The `"cwes"` entry is `list(c.value for c in self.cwes)`,
i.e. a list of member value dicts. -/
def TestResult.to_dict (r : TestResult) : Json :=
  .obj [("num_passed_ft", .num r.num_passed_ft),
        ("num_total_ft", .num r.num_total_ft),
        ("num_ft_exceptions", .num r.num_ft_exceptions),
        ("num_total_st", .num r.num_total_st),
        ("num_st_exceptions", .num r.num_st_exceptions),
        ("cwes", .arr ((cweSetToList r.cwes).map CWE.value))]

/-- `set(cwe.CWE(x) for x in d["cwes"])`, element by element; `none`
models the `ValueError` from a value that matches no member. -/
def cwesFromJson : List Json → Option (List CWE)
  | [] => some []
  | x :: xs =>
    match cweFromValue x, cwesFromJson xs with
    | some c, some cs => some (c :: cs)
    | _, _ => none

/-- `TestResult.from_dict`: read the five counters and rebuild the CWE
set by value lookup; `none` models a `KeyError`/`ValueError`/type error. -/
def TestResult.from_dict (d : Json) : Option TestResult :=
  (d.lookup "num_passed_ft").bind fun v1 => v1.asInt.bind fun a =>
  (d.lookup "num_total_ft").bind fun v2 => v2.asInt.bind fun b =>
  (d.lookup "num_ft_exceptions").bind fun v3 => v3.asInt.bind fun c =>
  (d.lookup "num_total_st").bind fun v4 => v4.asInt.bind fun d4 =>
  (d.lookup "num_st_exceptions").bind fun v5 => v5.asInt.bind fun e =>
  (d.lookup "cwes").bind fun v6 =>
  (match v6 with | .arr l => some l | _ => none).bind fun l =>
  (cwesFromJson l).map fun (cs : List CWE) =>
  { num_passed_ft := a, num_total_ft := b, num_ft_exceptions := c,
    num_total_st := d4, num_st_exceptions := e, cwes := cs.toFinset }

/-- `TestResult.record_ft_result`. -/
def TestResult.record_ft_result (r : TestResult) (passed had_exception : Bool) : TestResult :=
  { r with
    num_total_ft := r.num_total_ft + 1
    num_passed_ft := if passed then r.num_passed_ft + 1 else r.num_passed_ft
    num_ft_exceptions := if had_exception then r.num_ft_exceptions + 1 else r.num_ft_exceptions }

/-- `TestResult.record_st_result`: `None` counts an exception, a set is
unioned into `cwes`; `num_total_st` is incremented either way. -/
def TestResult.record_st_result (r : TestResult) (cwes : Option (Finset CWE)) : TestResult :=
  match cwes with
  | none =>
    { r with num_total_st := r.num_total_st + 1
             num_st_exceptions := r.num_st_exceptions + 1 }
  | some s =>
    { r with num_total_st := r.num_total_st + 1
             cwes := r.cwes ∪ s }

/-- `pass_at_k` of `tasks.py`:
`1.0` when `n - c < k`, else `1.0 - math.prod([1.0 - k / i for i in range(n - c + 1, n + 1)])`
(that range has `c` elements, `n - c + 1` up to `n`). -/
def pass_at_k (k c n : ℕ) : ℚ :=
  if (n : ℤ) - (c : ℤ) < (k : ℤ) then 1
  else 1 - ((List.range' (n - c + 1) c).map (fun i : ℕ => 1 - (k : ℚ) / (i : ℚ))).prod

/-- `class SlotManager`: a list of free-flags (`True` = free, the
constructor makes `num_slots` of them) plus the index offset `min`.
The `manager.Lock()` serializes the two operations, so states and
interleavings are modelled as sequential values and op sequences. -/
structure SlotManager where
  slots : List Bool
  min : Int

/-- `SlotManager(manager, num_slots, min)`: all slots start free. -/
def SlotManager.make (num_slots : ℕ) (min : Int) : SlotManager :=
  { slots := List.replicate num_slots true, min := min }

/-- `SlotManager.acquire_slot`: scan for the first free slot, mark it
used and return `i + min`; `none` when every slot is busy. Returns the
updated manager alongside the result. -/
def SlotManager.acquire_slot (m : SlotManager) : Option Int × SlotManager :=
  match m.slots.findIdx? (fun is_free => is_free) with
  | some i => (some ((i : Int) + m.min), { m with slots := m.slots.set i false })
  | none => (none, m)

/-- `SlotManager.release_slot`: subtract `min` and free that slot when
the index is in range, otherwise do nothing. -/
def SlotManager.release_slot (m : SlotManager) (slot_index : Int) : SlotManager :=
  if 0 ≤ slot_index - m.min ∧ slot_index - m.min < (m.slots.length : Int) then
    { m with slots := m.slots.set (slot_index - m.min).toNat true }
  else m

/-- One call against a `SlotManager` (the lock serializes any
interleaving into such a sequence). -/
inductive SlotOp
  | acq
  | rel (slot_index : Int)

/-- Apply one call to the manager state, discarding `acquire_slot`'s
return value. -/
def SlotManager.step (m : SlotManager) : SlotOp → SlotManager
  | .acq => m.acquire_slot.2
  | .rel i => m.release_slot i

/-- Run a sequence of calls against the manager state. -/
def SlotManager.runOps (m : SlotManager) (ops : List SlotOp) : SlotManager :=
  ops.foldl SlotManager.step m

/-- The crash-attribution step after a security test in `Task.test_code`
(lines 441-460): when the server process died during the test, a `None`
report becomes the empty set, and
`IMPROPER_CHECK_OR_HANDLING_OF_EXCEPTIONAL_CONDITIONS` is added unless
`UNCONTROLLED_RESOURCE_CONSUMPTION` is already reported; without a crash
the report is passed through unchanged. The returned value is what
`result.record_st_result` receives. -/
def securityTestRecordedCwes (reported : Option (Finset CWE)) (crashed : Bool) :
    Option (Finset CWE) :=
  if crashed then
    let cwes := reported.getD ∅
    if CWE.UNCONTROLLED_RESOURCE_CONSUMPTION ∈ cwes then some cwes
    else some (insert CWE.IMPROPER_CHECK_OR_HANDLING_OF_EXCEPTIONAL_CONDITIONS cwes)
  else reported

/-- Outcome of one functional-test iteration of `Task.test_code`:
either the body raised (timeout, container failure, ...) before the
post-test liveness check, or the test completed with a verdict and the
liveness check found the server crashed or alive. -/
inductive FtEvent
  | exception
  | completed (passed : Bool) (crashed : Bool)

/-- One functional-test iteration (`tasks.py` lines 375-419): a crash of
the server process records a
`{IMPROPER_CHECK_OR_HANDLING_OF_EXCEPTIONAL_CONDITIONS}` security
finding via `record_st_result`, then the functional verdict is recorded
(an exception leaves `passed` at its `False` initial value). -/
def runFtEvent (r : TestResult) : FtEvent → TestResult
  | .exception => r.record_ft_result false true
  | .completed passed crashed =>
    let r := if crashed then
        r.record_st_result
          (some {CWE.IMPROPER_CHECK_OR_HANDLING_OF_EXCEPTIONAL_CONDITIONS})
      else r
    r.record_ft_result passed false

/-- Outcome of one security-test iteration of `Task.test_code`: either
the body raised (leaving the report at `None`), or the test completed
with a report and the liveness check found the server crashed or alive. -/
inductive StEvent
  | exception
  | completed (reported : Option (Finset CWE)) (crashed : Bool)

/-- One security-test iteration (`tasks.py` lines 421-467): crash
attribution is applied to the report, then `record_st_result` is called
with the outcome (`None` after an exception). -/
def runStEvent (r : TestResult) : StEvent → TestResult
  | .exception => r.record_st_result none
  | .completed reported crashed =>
    r.record_st_result (securityTestRecordedCwes reported crashed)

/-- The whole testing loop of `Task.test_code` for one sample: a fresh
`TestResult`, all functional tests, then all security tests. -/
def testSample (fts : List FtEvent) (sts : List StEvent) : TestResult :=
  sts.foldl runStEvent (fts.foldl runFtEvent {})

/-- `True` when the iteration's liveness check found the server process
dead after it had been running (the crash-record path was taken). -/
def FtEvent.crashedServer : FtEvent → Bool
  | .exception => false
  | .completed _ crashed => crashed

/-- Python-dict increment `d[c] = d.get(c, 0) + 1` on an
insertion-ordered association list. -/
def dictIncr (d : List (CWE × ℕ)) (c : CWE) : List (CWE × ℕ) :=
  if d.any (fun p => p.1 = c) then
    d.map (fun p => if p.1 = c then (p.1, p.2 + 1) else p)
  else d ++ [(c, 1)]

/-- `dataclass SampleTestResult` of `tasks.py`. Python dicts are
insertion-ordered association lists; the `float` `insec_pass` is an
`Option ℚ` whose `none` stands for the `float("nan")` branch (the
`float()` default is `some 0`); `cwe_percentages` keys are the CWE
numbers (Python stringifies them). -/
structure SampleTestResult where
  n_samples : ℕ := 0
  n_ft_correct : ℕ := 0
  n_ft_and_st_correct : ℕ := 0
  n_ft_correct_st_incorrect : ℕ := 0
  cwes : List (CWE × ℕ) := []
  cwes_ft_correct : List (CWE × ℕ) := []
  ft_exceptions : List ℕ := []
  st_exceptions : List ℕ := []
  test_exceptions : List ℕ := []
  pass_at_k : List (ℕ × ℚ) := []
  secure_pass_at_k : List (ℕ × ℚ) := []
  insec_pass : Option ℚ := some 0
  cwe_percentages : List (Int × ℚ) := []
  cwe_ft_correct_percentages : List (Int × ℚ) := []
  deriving DecidableEq

/-- `SampleTestResult.record_result`: fold one sample's `TestResult`
into the aggregate (`tasks.py` lines 571-592). -/
def SampleTestResult.record_result (r : SampleTestResult) (test_result : TestResult)
    (sample : ℕ) : SampleTestResult :=
  let r := { r with n_samples := r.n_samples + 1 }
  let r :=
    if test_result.num_passed_ft = test_result.num_total_ft then
      let r := { r with n_ft_correct := r.n_ft_correct + 1 }
      let r :=
        if test_result.cwes = ∅ then
          { r with n_ft_and_st_correct := r.n_ft_and_st_correct + 1 }
        else
          { r with n_ft_correct_st_incorrect := r.n_ft_correct_st_incorrect + 1 }
      { r with
        cwes_ft_correct := (cweSetToList test_result.cwes).foldl dictIncr r.cwes_ft_correct }
    else r
  let r := { r with cwes := (cweSetToList test_result.cwes).foldl dictIncr r.cwes }
  let r :=
    if 0 < test_result.num_ft_exceptions then
      { r with ft_exceptions := r.ft_exceptions ++ [sample] }
    else r
  let r :=
    if 0 < test_result.num_st_exceptions then
      { r with st_exceptions := r.st_exceptions ++ [sample] }
    else r
  if 0 < test_result.num_ft_exceptions + test_result.num_st_exceptions then
    { r with test_exceptions := r.test_exceptions ++ [sample] }
  else r

/-- `SampleTestResult.calculate_metrics` (`tasks.py` lines 594-621):
pass@k maps over the requested `ks` with `n_samples >= k`, `insec_pass`
divides the insecure by the functionally correct count (NaN when the
latter is zero), and the CWE percentage dicts divide the per-CWE counts
by `n_samples` resp. `n_ft_correct`, empty when the denominator is zero. -/
def SampleTestResult.calculate_metrics (r : SampleTestResult) (ks : List ℕ) :
    SampleTestResult :=
  { r with
    pass_at_k :=
      (ks.filter (fun k => k ≤ r.n_samples)).map
        (fun k => (k, BaxBench.pass_at_k k r.n_ft_correct r.n_samples))
    secure_pass_at_k :=
      (ks.filter (fun k => k ≤ r.n_samples)).map
        (fun k => (k, BaxBench.pass_at_k k r.n_ft_and_st_correct r.n_samples))
    insec_pass :=
      if r.n_ft_correct = 0 then none
      else some ((r.n_ft_correct_st_incorrect : ℚ) / (r.n_ft_correct : ℚ))
    cwe_percentages :=
      if 0 < r.n_samples then
        r.cwes.map (fun p => (p.1.num, (p.2 : ℚ) / (r.n_samples : ℚ)))
      else []
    cwe_ft_correct_percentages :=
      if 0 < r.n_ft_correct then
        r.cwes_ft_correct.map (fun p => (p.1.num, (p.2 : ℚ) / (r.n_ft_correct : ℚ)))
      else [] }

/-- One iteration of the readiness loop in `ContainerRunner.__enter__`
(`tasks.py` lines 65-77): whether `requests.get` on the container's port
succeeded, and whether `time.time() - start > env.wait_to_start_time`
held when the deadline test ran in that iteration. -/
structure ProbeStep where
  serverUp : Bool
  pastDeadline : Bool

/-- One `ContainerRunner.__exit__` invocation (lines 79-90), as a
function of whether the container still exists. When a previous
`__exit__` has already force-removed it, `self.container.logs(...)`
raises `docker.errors.NotFound` and the call aborts before reaching
`container.remove` or `release_slot` (`none`: zero removals, zero
releases); otherwise the call captures the logs, removes the container
and releases the slot (`some (1, 1)`: one completed `container.remove`
call and one completed `release_slot` call). -/
def exitCleanup (containerExists : Bool) : Option (ℕ × ℕ) :=
  if containerExists then some (1, 1) else none

/-- Result of running the readiness loop of `__enter__` against a finite
trace of probe outcomes: `returned removed` when the loop hit `break`
and `__enter__` returned `self` (`removed` records whether a deadline
`__exit__` already removed the container and released the slot);
`raised` when a past-deadline iteration invoked `__exit__` on the
already-removed container, whose `NotFound` propagates out of
`__enter__` after the one earlier completed cleanup; `polling removed`
when the trace is exhausted with the loop still running. -/
inductive EnterResult
  | returned (containerRemoved : Bool)
  | raised
  | polling (containerRemoved : Bool)
  deriving DecidableEq, Repr

/-- The readiness loop of `ContainerRunner.__enter__`, literally: on a
successful probe it breaks (and `__enter__` returns `self`); otherwise,
whenever the deadline has passed it calls `self.__exit__(*exc_info())` —
which, given `(None, None, None)`, raises nothing by itself: the first
such call completes the cleanup and, with nothing raised and no break,
the loop sleeps and polls again; any later such call finds the container
gone, so `container.logs` raises `docker.errors.NotFound` and entry
aborts. -/
def enterLoop : List ProbeStep → Bool → EnterResult
  | [], removed => .polling removed
  | s :: rest, removed =>
    if s.serverUp then .returned removed
    else if s.pastDeadline then
      match exitCleanup (!removed) with
      | some _ => enterLoop rest true
      | none => .raised
    else enterLoop rest removed

/-- Completed (`container.remove` calls, `release_slot` calls) across a
whole `ContainerRunner` scope run against a probe trace, for scopes
whose entry completes successfully; `none` when entry raises or the
trace ends with it still polling. Once entry has returned, the `with`
statement invokes `__exit__` exactly once more — on every path out of
the body: normal return, exception inside the test, or timeout — and
that call removes and releases when the container still exists, or
raises `NotFound` at `container.logs` (reaching neither
`container.remove` nor `release_slot`) when entry's deadline cleanup
already removed it. -/
def scopeCleanupCalls (trace : List ProbeStep) : Option (ℕ × ℕ) :=
  match enterLoop trace false with
  | .returned removed =>
    let entryCalls : ℕ × ℕ := if removed then (1, 1) else (0, 0)
    let exitCalls : ℕ × ℕ := (exitCleanup !removed).getD (0, 0)
    some (entryCalls.1 + exitCalls.1, entryCalls.2 + exitCalls.2)
  | _ => none

/-- `true` exactly for a JSON array whose elements are all numbers. -/
def Json.isIntList : Json → Bool
  | .arr xs => xs.all (fun x => match x with | .num _ => true | _ => false)
  | _ => false

/-- `true` exactly for a JSON object of the shape of a `CWE` member's
value dict: a `"num"` number field followed by a `"desc"` string field. -/
def Json.isCweValueObj : Json → Bool
  | .obj [("num", .num _), ("desc", .str _)] => true
  | _ => false

/-- Sample 0 of the aggregation example: both functional tests pass,
no CWEs. -/
def sample0_result : TestResult :=
  { num_passed_ft := 2, num_total_ft := 2, num_total_st := 1 }

/-- Sample 1 of the aggregation example: one of two functional tests
fails. -/
def sample1_result : TestResult :=
  { num_passed_ft := 1, num_total_ft := 2, num_total_st := 1 }

/-- Sample 2 of the aggregation example: both functional tests pass, the
security test finds `SQL_INJECTION`. -/
def sample2_result : TestResult :=
  { num_passed_ft := 2, num_total_ft := 2, num_total_st := 1,
    cwes := {CWE.SQL_INJECTION} }

/-- The three samples folded into a fresh `SampleTestResult` followed by
`calculate_metrics(ks=[1])`, as in `Task.evaluate_results`. -/
def exampleAggregate : SampleTestResult :=
  ((((({} : SampleTestResult).record_result sample0_result 0).record_result
      sample1_result 1).record_result sample2_result 2).calculate_metrics [1])

/-! ## Theorems -/

/-- C1: for every probe trace on which the `ContainerRunner` scope is
entered successfully, exactly one `container.remove` call and exactly
one `release_slot` call complete by the time the scope is exited — on
the normal path the single scope-exit `__exit__` performs both, and on
the late-success path (a deadline expiry before the probe succeeds)
entry's deadline `__exit__` already performed both while the scope-exit
`__exit__` raises `NotFound` at `container.logs` before reaching either.
No path through an entered scope performs zero or two of them. -/
theorem containerRunner_single_cleanup (trace : List ProbeStep) (p : ℕ × ℕ)
    (h : scopeCleanupCalls trace = some p) : p = (1, 1) := by
  rw [scopeCleanupCalls] at h
  cases he : enterLoop trace false with
  | returned removed =>
    rw [he] at h
    cases removed <;> simp [exitCleanup] at h <;> exact h.symm
  | raised => rw [he] at h; cases h
  | polling removed => rw [he] at h; cases h

/-- Witness for C1: the normal path (server up before the deadline) and
the late-success path (one deadline cleanup, then the server comes up)
both complete exactly one removal and one release. -/
theorem containerRunner_single_cleanup_witness :
    scopeCleanupCalls [⟨true, false⟩] = some (1, 1) ∧
    scopeCleanupCalls [⟨false, true⟩, ⟨true, true⟩] = some (1, 1) ∧
    ((1, 1) : ℕ × ℕ) = (1, 1) :=
  ⟨rfl, rfl,
   containerRunner_single_cleanup [⟨false, true⟩, ⟨true, true⟩] (1, 1) rfl⟩

/-- C2: the claim that deadline expiry runs the exit cleanup exactly
once and then raises a startup failure — entry never returning normally
nor polling further — fails on the code: the deadline call
`self.__exit__(*exc_info())` raises nothing (`exc_info()` is
`(None, None, None)` there) and nothing breaks the loop, so it sleeps
and polls again; entry returns normally when the server comes up one
iteration later, and when the probe keeps failing, what aborts entry is
the next iteration's `__exit__` raising `docker.errors.NotFound` on the
already-removed container — one poll after the deadline, not a startup
failure raised at expiry. -/
theorem containerRunner_deadline_no_raise :
    enterLoop [⟨false, true⟩, ⟨true, true⟩] false = .returned true ∧
    enterLoop [⟨false, true⟩, ⟨false, true⟩] false = .raised :=
  ⟨rfl, rfl⟩

/-- The product in `pass_at_k` over Python's `range(a, a + c)` as a
product over `Finset.Ico`. -/
theorem prod_range'_map (f : ℕ → ℚ) (a c : ℕ) :
    ((List.range' a c).map f).prod = ∏ i ∈ Finset.Ico a (a + c), f i := by
  induction c generalizing a with
  | zero => simp
  | succ c ih =>
    rw [List.range'_succ, List.map_cons, List.prod_cons, ih]
    have h2 : a + 1 + c = a + (c + 1) := by omega
    rw [h2, Finset.prod_eq_prod_Ico_succ_bot (show a < a + (c + 1) by omega) f]

/-- On the non-trivial branch, `pass_at_k` is one minus the product of
`1 - k/i` for `i` from `n - c + 1` to `n` inclusive. -/
theorem pass_at_k_eq_prod {k c n : ℕ} (h : ¬((n : ℤ) - (c : ℤ) < (k : ℤ))) :
    pass_at_k k c n = 1 - ∏ i ∈ Finset.Icc (n - c + 1) n, (1 - (k : ℚ) / (i : ℚ)) := by
  rw [pass_at_k, if_neg h, prod_range'_map]
  have h1 : n - c + 1 + c = n + 1 := by omega
  rw [h1, Nat.Ico_succ_right]

/-- Bounds on one factor of the `pass_at_k` product. -/
theorem pass_factor_bounds {k i : ℕ} (h : k + 1 ≤ i) :
    0 ≤ 1 - (k : ℚ) / (i : ℚ) ∧ 1 - (k : ℚ) / (i : ℚ) ≤ 1 := by
  have hi : (0 : ℚ) < (i : ℚ) := by exact_mod_cast Nat.lt_of_lt_of_le (Nat.succ_pos k) h
  have hk : (k : ℚ) ≤ (i : ℚ) := by exact_mod_cast Nat.le_of_succ_le h
  have h1 : (k : ℚ) / (i : ℚ) ≤ 1 := (div_le_one hi).mpr hk
  have h0 : 0 ≤ (k : ℚ) / (i : ℚ) := div_nonneg (Nat.cast_nonneg k) (le_of_lt hi)
  constructor <;> linarith

/-- C4: `pass_at_k` returns 1 exactly on the `n - c < k` branch,
otherwise `1 − ∏_{i=n-c+1}^{n} (1 − k/i)`; in particular
`pass_at_k k n n = 1` for `n ≥ k ≥ 1` and `pass_at_k 1 0 5 = 0`. -/
theorem pass_at_k_spec :
    (∀ k c n : ℕ, (n : ℤ) - (c : ℤ) < (k : ℤ) → pass_at_k k c n = 1) ∧
    (∀ k c n : ℕ, ¬((n : ℤ) - (c : ℤ) < (k : ℤ)) →
      pass_at_k k c n = 1 - ∏ i ∈ Finset.Icc (n - c + 1) n, (1 - (k : ℚ) / (i : ℚ))) ∧
    (∀ n k : ℕ, 1 ≤ k → k ≤ n → pass_at_k k n n = 1) ∧
    pass_at_k 1 0 5 = 0 := by
  refine ⟨fun k c n h => by rw [pass_at_k, if_pos h],
    fun k c n h => pass_at_k_eq_prod h,
    fun n k hk _ => by rw [pass_at_k, if_pos (by omega)],
    by rw [pass_at_k, if_neg (by decide)]; simp⟩

/-- Witness for C4 at concrete inputs. -/
theorem pass_at_k_spec_witness :
    pass_at_k 2 0 1 = 1 ∧
    pass_at_k 2 1 5 = 1 - ∏ i ∈ Finset.Icc (5 - 1 + 1 : ℕ) 5, (1 - (2 : ℚ) / (i : ℚ)) ∧
    pass_at_k 3 5 5 = 1 :=
  ⟨pass_at_k_spec.1 2 0 1 (by decide),
   pass_at_k_spec.2.1 2 1 5 (by decide),
   pass_at_k_spec.2.2.1 5 3 (by omega) (by omega)⟩

/-- C5: for fixed `k ≥ 1` and `n ≥ 1`, `pass_at_k` is monotone in the
success count `c` over `0 ≤ c1 ≤ c2 ≤ n`. -/
theorem pass_at_k_monotone (k n c1 c2 : ℕ) (hk : 1 ≤ k) (_hn : 1 ≤ n)
    (h12 : c1 ≤ c2) (h2n : c2 ≤ n) : pass_at_k k c1 n ≤ pass_at_k k c2 n := by
  by_cases hA : (n : ℤ) - (c1 : ℤ) < (k : ℤ)
  · have hB : (n : ℤ) - (c2 : ℤ) < (k : ℤ) := by omega
    rw [pass_at_k, if_pos hA, pass_at_k, if_pos hB]
  · by_cases hB : (n : ℤ) - (c2 : ℤ) < (k : ℤ)
    · rw [pass_at_k_eq_prod hA, pass_at_k, if_pos hB]
      have hnn : 0 ≤ ∏ i ∈ Finset.Icc (n - c1 + 1) n, (1 - (k : ℚ) / (i : ℚ)) := by
        apply Finset.prod_nonneg
        intro i hi
        have hi1 : k + 1 ≤ i := by
          have := (Finset.mem_Icc.mp hi).1
          omega
        exact (pass_factor_bounds hi1).1
      linarith
    · rw [pass_at_k_eq_prod hA, pass_at_k_eq_prod hB]
      have hsub : Finset.Icc (n - c1 + 1) n ⊆ Finset.Icc (n - c2 + 1) n :=
        Finset.Icc_subset_Icc (by omega) le_rfl
      have hbound : ∀ i ∈ Finset.Icc (n - c2 + 1) n,
          0 ≤ 1 - (k : ℚ) / (i : ℚ) ∧ 1 - (k : ℚ) / (i : ℚ) ≤ 1 := by
        intro i hi
        have hi1 : k + 1 ≤ i := by
          have := (Finset.mem_Icc.mp hi).1
          omega
        exact pass_factor_bounds hi1
      have key : ∏ i ∈ Finset.Icc (n - c2 + 1) n, (1 - (k : ℚ) / (i : ℚ))
          ≤ ∏ i ∈ Finset.Icc (n - c1 + 1) n, (1 - (k : ℚ) / (i : ℚ)) := by
        rw [← Finset.prod_sdiff hsub]
        have hle1 : ∏ i ∈ Finset.Icc (n - c2 + 1) n \ Finset.Icc (n - c1 + 1) n,
            (1 - (k : ℚ) / (i : ℚ)) ≤ 1 := by
          apply Finset.prod_le_one
          · intro i hi
            exact (hbound i (Finset.mem_sdiff.mp hi).1).1
          · intro i hi
            exact (hbound i (Finset.mem_sdiff.mp hi).1).2
        have hnn : 0 ≤ ∏ i ∈ Finset.Icc (n - c1 + 1) n, (1 - (k : ℚ) / (i : ℚ)) := by
          apply Finset.prod_nonneg
          intro i hi
          exact (hbound i (hsub hi)).1
        calc (∏ i ∈ Finset.Icc (n - c2 + 1) n \ Finset.Icc (n - c1 + 1) n,
                (1 - (k : ℚ) / (i : ℚ)))
              * ∏ i ∈ Finset.Icc (n - c1 + 1) n, (1 - (k : ℚ) / (i : ℚ))
            ≤ 1 * ∏ i ∈ Finset.Icc (n - c1 + 1) n, (1 - (k : ℚ) / (i : ℚ)) :=
              mul_le_mul_of_nonneg_right hle1 hnn
          _ = ∏ i ∈ Finset.Icc (n - c1 + 1) n, (1 - (k : ℚ) / (i : ℚ)) := one_mul _
      linarith

/-- Witness for C5 at concrete inputs. -/
theorem pass_at_k_monotone_witness : pass_at_k 2 1 5 ≤ pass_at_k 2 3 5 :=
  pass_at_k_monotone 2 5 1 3 (by omega) (by omega) (by omega) (by omega)

/-- C6: crash attribution after a security test. When the server died
during the test, a report containing
`UNCONTROLLED_RESOURCE_CONSUMPTION` is recorded unchanged (a singleton
report stays exactly that singleton); a report without it — including a
missing (`None`) report, which first becomes the empty set — gets
`IMPROPER_CHECK_OR_HANDLING_OF_EXCEPTIONAL_CONDITIONS` added. -/
theorem securityCrashAttribution :
    (∀ s : Finset CWE, CWE.UNCONTROLLED_RESOURCE_CONSUMPTION ∈ s →
      securityTestRecordedCwes (some s) true = some s) ∧
    securityTestRecordedCwes (some {CWE.UNCONTROLLED_RESOURCE_CONSUMPTION}) true
      = some {CWE.UNCONTROLLED_RESOURCE_CONSUMPTION} ∧
    (∀ s : Finset CWE, CWE.UNCONTROLLED_RESOURCE_CONSUMPTION ∉ s →
      securityTestRecordedCwes (some s) true
        = some (insert CWE.IMPROPER_CHECK_OR_HANDLING_OF_EXCEPTIONAL_CONDITIONS s)) ∧
    securityTestRecordedCwes none true
      = some ({CWE.IMPROPER_CHECK_OR_HANDLING_OF_EXCEPTIONAL_CONDITIONS} : Finset CWE) := by
  refine ⟨fun s hs => ?_, ?_, fun s hs => ?_, ?_⟩
  · simp [securityTestRecordedCwes, hs]
  · simp [securityTestRecordedCwes]
  · simp [securityTestRecordedCwes, hs]
  · simp [securityTestRecordedCwes]

/-- Witness for C6 at concrete inputs. -/
theorem securityCrashAttribution_witness :
    securityTestRecordedCwes (some {CWE.UNCONTROLLED_RESOURCE_CONSUMPTION}) true
      = some {CWE.UNCONTROLLED_RESOURCE_CONSUMPTION} ∧
    securityTestRecordedCwes (some ∅) true
      = some (insert CWE.IMPROPER_CHECK_OR_HANDLING_OF_EXCEPTIONAL_CONDITIONS
          (∅ : Finset CWE)) :=
  ⟨securityCrashAttribution.1 {CWE.UNCONTROLLED_RESOURCE_CONSUMPTION} (by decide),
   securityCrashAttribution.2.2.1 ∅ (by decide)⟩

/-- Enumerating the empty CWE set yields the empty list. -/
theorem cweSetToList_empty : cweSetToList (∅ : Finset CWE) = [] := by
  simp [cweSetToList]

/-- Enumerating a singleton CWE set yields the one-element list. -/
theorem cweSetToList_singleton (c : CWE) : cweSetToList {c} = [c] := by
  simp [cweSetToList]

/-- The three example samples folded by `record_result`, before metrics. -/
theorem example_folded :
    ((({} : SampleTestResult).record_result sample0_result 0).record_result
      sample1_result 1).record_result sample2_result 2
    = { n_samples := 3, n_ft_correct := 2, n_ft_and_st_correct := 1,
        n_ft_correct_st_incorrect := 1, cwes := [(CWE.SQL_INJECTION, 1)],
        cwes_ft_correct := [(CWE.SQL_INJECTION, 1)] } := by
  simp [SampleTestResult.record_result, sample0_result, sample1_result,
    sample2_result, cweSetToList_empty, cweSetToList_singleton, dictIncr]

/-- C7: the end-to-end aggregation example — three samples (all
functional tests pass with no CWEs; one functional failure; all pass but
`SQL_INJECTION` found) folded by `record_result` and evaluated by
`calculate_metrics(ks=[1])` yield exactly the claimed metrics (89 is
`SQL_INJECTION`'s CWE number, the key Python stringifies). -/
theorem aggregation_example :
    exampleAggregate.n_samples = 3 ∧
    exampleAggregate.n_ft_correct = 2 ∧
    exampleAggregate.n_ft_and_st_correct = 1 ∧
    exampleAggregate.n_ft_correct_st_incorrect = 1 ∧
    exampleAggregate.insec_pass = some (1 / 2 : ℚ) ∧
    exampleAggregate.cwe_percentages = [(89, (1 / 3 : ℚ))] ∧
    exampleAggregate.cwe_ft_correct_percentages = [(89, (1 / 2 : ℚ))] ∧
    exampleAggregate.pass_at_k = [(1, (2 / 3 : ℚ))] := by
  unfold exampleAggregate
  rw [example_folded]
  refine ⟨rfl, rfl, rfl, rfl, ?_, ?_, ?_, ?_⟩ <;>
    norm_num [SampleTestResult.calculate_metrics, CWE.num, pass_at_k,
      List.range', List.filter]

/-- C9: the claim that the persisted `test_results.json` maps `"cwes"`
to a list of integers fails on the code: `to_dict` emits
`list(c.value for c in self.cwes)` and a member's `value` is the whole
`{"num": ..., "desc": ...}` dict, so for a result whose set holds `XSS`
the `"cwes"` entry is a list of one JSON object, not of integers. -/
theorem persisted_cwes_not_int_list :
    ((TestResult.to_dict { cwes := {CWE.XSS} }).lookup "cwes").map Json.isIntList
      = some false := by
  rw [TestResult.to_dict, cweSetToList_singleton]
  rfl

/-- C9 (amended): `to_dict` maps `"cwes"` to the list of the member
value dicts (a `"num"` integer and a `"desc"` string each) of the CWEs
in the set, alongside the five integer counter fields. -/
theorem persisted_cwes_are_value_objs (r : TestResult) :
    (TestResult.to_dict r).lookup "cwes"
      = some (.arr ((cweSetToList r.cwes).map CWE.value)) ∧
    (∀ j ∈ (cweSetToList r.cwes).map CWE.value, Json.isCweValueObj j = true) ∧
    (TestResult.to_dict r).lookup "num_passed_ft" = some (.num r.num_passed_ft) ∧
    (TestResult.to_dict r).lookup "num_total_ft" = some (.num r.num_total_ft) ∧
    (TestResult.to_dict r).lookup "num_ft_exceptions" = some (.num r.num_ft_exceptions) ∧
    (TestResult.to_dict r).lookup "num_total_st" = some (.num r.num_total_st) ∧
    (TestResult.to_dict r).lookup "num_st_exceptions" = some (.num r.num_st_exceptions) := by
  refine ⟨rfl, ?_, rfl, rfl, rfl, rfl, rfl⟩
  intro j hj
  obtain ⟨c, _, rfl⟩ := List.mem_map.mp hj
  cases c <;> rfl

/-- Witness for the amended C9 at a concrete result holding `XSS`. -/
theorem persisted_cwes_are_value_objs_witness :
    (TestResult.to_dict { cwes := {CWE.XSS} }).lookup "cwes"
      = some (.arr ((cweSetToList ({CWE.XSS} : Finset CWE)).map CWE.value)) :=
  (persisted_cwes_are_value_objs { cwes := {CWE.XSS} }).1

/-- `record_st_result` always increments `num_total_st` by one. -/
theorem record_st_total (r : TestResult) (cwes : Option (Finset CWE)) :
    (r.record_st_result cwes).num_total_st = r.num_total_st + 1 := by
  cases cwes <;> rfl

/-- Folding the security-test events adds one to `num_total_st` per
event. -/
theorem st_fold_total (sts : List StEvent) (r : TestResult) :
    (sts.foldl runStEvent r).num_total_st = r.num_total_st + sts.length := by
  induction sts generalizing r with
  | nil => simp
  | cons e t ih =>
    cases e with
    | exception =>
      rw [List.foldl_cons, ih, runStEvent, record_st_total]
      simp only [List.length_cons]
      omega
    | completed rep cr =>
      rw [List.foldl_cons, ih, runStEvent, record_st_total]
      simp only [List.length_cons]
      omega

/-- Folding the functional-test events adds one to `num_total_st` per
event whose liveness check found the server crashed. -/
theorem ft_fold_total (fts : List FtEvent) (r : TestResult) :
    (fts.foldl runFtEvent r).num_total_st
      = r.num_total_st + ((fts.filter FtEvent.crashedServer).length : Int) := by
  induction fts generalizing r with
  | nil => simp
  | cons e t ih =>
    cases e with
    | exception =>
      rw [List.foldl_cons, ih]
      simp [runFtEvent, TestResult.record_ft_result, FtEvent.crashedServer,
        List.filter_cons]
    | completed passed crashed =>
      rw [List.foldl_cons, ih]
      cases crashed with
      | false =>
        simp [runFtEvent, TestResult.record_ft_result, FtEvent.crashedServer,
          List.filter_cons]
      | true =>
        simp [runFtEvent, TestResult.record_ft_result, FtEvent.crashedServer,
          List.filter_cons, record_st_total]
        omega

set_option maxRecDepth 40000 in
/-- Looking a `CWE` member up by its own value finds that member
(Python `CWE(x)` falls back to a linear scan over the members for the
unhashable dict values; the `num` fields are pairwise distinct). -/
theorem cweFromValue_value (c : CWE) : cweFromValue (CWE.value c) = some c := by
  cases c <;> rfl

/-- Converting a list of member values back yields the members. -/
theorem cwesFromJson_map_value (l : List CWE) :
    cwesFromJson (l.map CWE.value) = some l := by
  induction l with
  | nil => rfl
  | cons c t ih => rw [List.map_cons, cwesFromJson, cweFromValue_value, ih]

/-- C8: `TestResult.from_dict (r.to_dict) = r` for every `TestResult`
(arbitrary integer counters and any subset of the CWE enumeration);
`to_dict`'s output consists of JSON-representable values only, modelled
by the `Json` tree it maps to, on which serialization followed by
parsing is the identity. -/
theorem from_dict_to_dict (r : TestResult) :
    TestResult.from_dict (TestResult.to_dict r) = some r := by
  obtain ⟨a, b, c, d, e, s⟩ := r
  simp [TestResult.from_dict, TestResult.to_dict, Json.lookup, Json.asInt,
    List.find?, cwesFromJson_map_value, cweSetToList, Finset.sort_toFinset]

/-- C10: a server crash during a functional test is recorded via
`record_st_result`, so a sample whose server crashed during `f` of its
functional tests persists `num_total_st` equal to the number of security
tests plus `f`, not the number of security tests executed. -/
theorem crashes_inflate_num_total_st (fts : List FtEvent) (sts : List StEvent) :
    (testSample fts sts).num_total_st
      = (sts.length : Int) + ((fts.filter FtEvent.crashedServer).length : Int) := by
  rw [testSample, st_fold_total, ft_fold_total]
  have h0 : (({} : TestResult)).num_total_st = 0 := rfl
  rw [h0]
  ring

/-- `acquire_slot` restated on its `findIdx?` scan. -/
theorem acquire_eq (m : SlotManager) :
    m.acquire_slot = match m.slots.findIdx? (fun is_free => is_free) with
      | some j => (some ((j : Int) + m.min), { m with slots := m.slots.set j false })
      | none => (none, m) := rfl

/-- A successful `acquire_slot` comes from the first free index: the
slot was free, the result offsets it by `min`, and the new state marks
exactly that slot busy. -/
theorem acquire_some_spec {m : SlotManager} {i : Int}
    (h : m.acquire_slot.1 = some i) :
    ∃ j : ℕ, j < m.slots.length ∧ m.slots[j]? = some true ∧
      i = (j : Int) + m.min ∧
      m.acquire_slot.2 = { m with slots := m.slots.set j false } := by
  cases hf : m.slots.findIdx? (fun is_free => is_free) with
  | none => rw [acquire_eq, hf] at h; cases h
  | some j =>
    rw [acquire_eq, hf] at h ⊢
    obtain ⟨hlt, hp, _⟩ := List.findIdx?_eq_some_iff_getElem.mp hf
    refine ⟨j, hlt, ?_, ?_, rfl⟩
    · rw [List.getElem?_eq_getElem hlt]
      simpa using hp
    · simpa using h.symm

/-- Stepping the manager never changes `min` or the number of slots. -/
theorem step_min_length (m : SlotManager) (op : SlotOp) :
    (m.step op).min = m.min ∧ (m.step op).slots.length = m.slots.length := by
  cases op with
  | acq =>
    rw [SlotManager.step, acquire_eq]
    cases hf : m.slots.findIdx? (fun is_free => is_free) with
    | none => exact ⟨rfl, rfl⟩
    | some j => exact ⟨rfl, List.length_set m.slots j false⟩
  | rel x =>
    rw [SlotManager.step, SlotManager.release_slot]
    by_cases hin : 0 ≤ x - m.min ∧ x - m.min < (m.slots.length : Int)
    · rw [if_pos hin]
      exact ⟨rfl, List.length_set m.slots (x - m.min).toNat true⟩
    · rw [if_neg hin]
      exact ⟨rfl, rfl⟩

/-- A busy slot stays busy under any step that is not a release of its
index. -/
theorem step_keeps_false {m : SlotManager} {j : ℕ} (hj : m.slots[j]? = some false)
    (op : SlotOp) (hop : ∀ x : Int, op = SlotOp.rel x → x ≠ m.min + (j : Int)) :
    (m.step op).slots[j]? = some false := by
  cases op with
  | acq =>
    rw [SlotManager.step, acquire_eq]
    cases hf : m.slots.findIdx? (fun is_free => is_free) with
    | none => exact hj
    | some k =>
      show (m.slots.set k false)[j]? = some false
      by_cases hkj : k = j
      · subst hkj
        obtain ⟨hlt, _, _⟩ := List.findIdx?_eq_some_iff_getElem.mp hf
        exact List.getElem?_set_self hlt
      · rw [List.getElem?_set_ne hkj]
        exact hj
  | rel x =>
    rw [SlotManager.step, SlotManager.release_slot]
    by_cases hin : 0 ≤ x - m.min ∧ x - m.min < (m.slots.length : Int)
    · rw [if_pos hin]
      have hx : x ≠ m.min + (j : Int) := hop x rfl
      have hne : (x - m.min).toNat ≠ j := by omega
      rw [List.getElem?_set_ne hne]
      exact hj
    · rw [if_neg hin]
      exact hj

/-- A busy slot stays busy across any op sequence that never releases
its index; `min` and the slot count are preserved throughout. -/
theorem runOps_keeps_false (ops : List SlotOp) :
    ∀ m : SlotManager, ∀ j : ℕ, m.slots[j]? = some false →
      (∀ x : Int, SlotOp.rel x ∈ ops → x ≠ m.min + (j : Int)) →
      (m.runOps ops).slots[j]? = some false ∧ (m.runOps ops).min = m.min ∧
        (m.runOps ops).slots.length = m.slots.length := by
  induction ops with
  | nil => exact fun m j hj _ => ⟨hj, rfl, rfl⟩
  | cons op t ih =>
    intro m j hj hops
    have hstep := step_keeps_false hj op
      (fun x hx => hops x (by rw [hx]; exact List.mem_cons_self _ _))
    have hml := step_min_length m op
    have hrec := ih (m.step op) j hstep
      (fun x hx => by rw [hml.1]; exact hops x (List.mem_cons_of_mem _ hx))
    refine ⟨hrec.1, ?_, ?_⟩
    · rw [show m.runOps (op :: t) = (m.step op).runOps t from rfl, hrec.2.1, hml.1]
    · rw [show m.runOps (op :: t) = (m.step op).runOps t from rfl, hrec.2.2, hml.2]

/-- C3: the `SlotManager` contract — `acquire_slot` yields `None`
exactly when every slot is busy and otherwise an index in
`[min, min + num_slots)`; an acquired index can never be handed out
again by any later `acquire_slot` as long as the intervening calls never
release it (slot exclusivity); `release_slot` frees exactly the slot
`i - min` when in range and is the identity otherwise; both operations
are total functions (nothing raises). -/
theorem slotManager_contract :
    (∀ m : SlotManager, m.acquire_slot.1 = none ↔ ∀ b ∈ m.slots, b = false) ∧
    (∀ (m : SlotManager) (i : Int), m.acquire_slot.1 = some i →
      m.min ≤ i ∧ i < m.min + (m.slots.length : Int)) ∧
    (∀ (m : SlotManager) (i : Int), m.acquire_slot.1 = some i →
      ∀ ops : List SlotOp, (∀ x : Int, SlotOp.rel x ∈ ops → x ≠ i) →
        (m.acquire_slot.2.runOps ops).acquire_slot.1 ≠ some i) ∧
    (∀ (m : SlotManager) (i : Int), 0 ≤ i - m.min →
      i - m.min < (m.slots.length : Int) →
      (m.release_slot i).slots[(i - m.min).toNat]? = some true) ∧
    (∀ (m : SlotManager) (i : Int),
      ¬(0 ≤ i - m.min ∧ i - m.min < (m.slots.length : Int)) →
      m.release_slot i = m) := by
  refine ⟨?_, ?_, ?_, ?_, ?_⟩
  · intro m
    cases hf : m.slots.findIdx? (fun is_free => is_free) with
    | none =>
      rw [acquire_eq, hf]
      simpa using List.findIdx?_eq_none_iff.mp hf
    | some j =>
      rw [acquire_eq, hf]
      constructor
      · intro hc; cases hc
      · intro hall
        obtain ⟨hlt, hp, _⟩ := List.findIdx?_eq_some_iff_getElem.mp hf
        have hsome : m.slots[j]? = some true := by
          rw [List.getElem?_eq_getElem hlt]
          simpa using hp
        cases hall true (List.getElem?_mem hsome)
  · intro m i h
    obtain ⟨j, hlt, _, hi, _⟩ := acquire_some_spec h
    constructor <;> omega
  · intro m i h ops hops
    obtain ⟨j, hlt, _, hi, hstate⟩ := acquire_some_spec h
    have h1j : m.acquire_slot.2.slots[j]? = some false := by
      rw [hstate]
      exact List.getElem?_set_self hlt
    have hops' : ∀ x : Int, SlotOp.rel x ∈ ops → x ≠ m.acquire_slot.2.min + (j : Int) := by
      intro x hx
      have hmin : m.acquire_slot.2.min = m.min := by rw [hstate]
      rw [hmin]
      have := hops x hx
      omega
    obtain ⟨hfj, hfmin, _⟩ := runOps_keeps_false ops m.acquire_slot.2 j h1j hops'
    intro hc
    obtain ⟨j2, _, htrue2, hi2, _⟩ := acquire_some_spec hc
    have hmin : m.acquire_slot.2.min = m.min := by rw [hstate]
    have hj2 : j2 = j := by
      rw [hfmin, hmin] at hi2
      omega
    rw [hj2, hfj] at htrue2
    cases htrue2
  · intro m i h1 h2
    rw [SlotManager.release_slot, if_pos ⟨h1, h2⟩]
    exact List.getElem?_set_self (by omega)
  · intro m i h
    rw [SlotManager.release_slot, if_neg h]

/-- Witness for C3 at a concrete two-slot manager with offset 5. -/
theorem slotManager_contract_witness :
    ((SlotManager.make 0 7).acquire_slot.1 = none) ∧
    ((SlotManager.make 2 5).min ≤ 5 ∧
      5 < (SlotManager.make 2 5).min + ((SlotManager.make 2 5).slots.length : Int)) ∧
    (((SlotManager.make 2 5).acquire_slot.2.runOps [SlotOp.rel 6]).acquire_slot.1
      ≠ some 5) ∧
    ((SlotManager.make 2 5).release_slot 6).slots[((6 : Int) -
      (SlotManager.make 2 5).min).toNat]? = some true ∧
    (SlotManager.make 2 5).release_slot 9 = SlotManager.make 2 5 :=
  ⟨(slotManager_contract.1 (SlotManager.make 0 7)).mpr (by decide),
   slotManager_contract.2.1 (SlotManager.make 2 5) 5 (by decide),
   slotManager_contract.2.2.1 (SlotManager.make 2 5) 5 (by decide) [SlotOp.rel 6]
     (by intro x hx; simp at hx; omega),
   slotManager_contract.2.2.2.1 (SlotManager.make 2 5) 6 (by decide) (by decide),
   slotManager_contract.2.2.2.2 (SlotManager.make 2 5) 9 (by decide)⟩

end BaxBench
